import Mathlib

/-!
Shallow embedding of the RandomRepo text-generation API and its SUPERT-style
scoring heuristic.

Text is modelled as `List Char` (Python strings); Python numbers (ints and
floats flowing through the arithmetic) are modelled as `ℚ`; Python's
`ZeroDivisionError` is modelled with `Except String`.

Source files embedded:
- `src/tests/supert_test.py`: `SUPERTMetric.calculate_insight_score`,
  `SUPERTMetric.calculate_score`, `InferenceQualityTester.run_test`,
  `InferenceQualityTester.interpret_score`.
- `src/api/v1/endpoints.py`: the `inference`, `batch_inference` and `login`
  handlers.

External collaborators (the pretrained BERT encoder, the NLTK punkt sentence
tokenizer) and the repository services missing from the sources
(`api/services/authentication_service.py`, `api/services/inference_service.py`)
are modelled from the spec, each marked `Modelled from the spec:` in its doc
comment.
-/

deriving instance DecidableEq for Except

namespace RandomRepo

/-- Whitespace test used by Python `str.split()` (no separator argument). -/
def isWs (c : Char) : Bool := c.isWhitespace

/-- ASCII lowercasing of one character, as Python `str.lower` acts on ASCII
text: each of `A`-`Z` maps to its lowercase form, every other character is
unchanged. -/
def lowerChar (c : Char) : Char :=
  if c = 'A' then 'a' else if c = 'B' then 'b' else if c = 'C' then 'c' else
  if c = 'D' then 'd' else if c = 'E' then 'e' else if c = 'F' then 'f' else
  if c = 'G' then 'g' else if c = 'H' then 'h' else if c = 'I' then 'i' else
  if c = 'J' then 'j' else if c = 'K' then 'k' else if c = 'L' then 'l' else
  if c = 'M' then 'm' else if c = 'N' then 'n' else if c = 'O' then 'o' else
  if c = 'P' then 'p' else if c = 'Q' then 'q' else if c = 'R' then 'r' else
  if c = 'S' then 's' else if c = 'T' then 't' else if c = 'U' then 'u' else
  if c = 'V' then 'v' else if c = 'W' then 'w' else if c = 'X' then 'x' else
  if c = 'Y' then 'y' else if c = 'Z' then 'z' else c

/-- Lowercase a whole string (Python `text.lower()`). -/
def lowerText (cs : List Char) : List Char := cs.map lowerChar

/-- Worker for `pySplit`: scans the text, `cur` holds the (reversed) word
being accumulated. -/
def wordsAux : List Char → List Char → List (List Char)
  | [], cur => if cur = [] then [] else [cur.reverse]
  | c :: rest, cur =>
    if isWs c then
      if cur = [] then wordsAux rest [] else cur.reverse :: wordsAux rest []
    else
      wordsAux rest (c :: cur)

/-- Python `text.split()` with no argument: words are the maximal runs of
non-whitespace characters; leading, trailing and repeated whitespace produce
no empty words. -/
def pySplit (cs : List Char) : List (List Char) := wordsAux cs []

/-- Sentence-final punctuation used by the sentence-segmentation model. -/
def isSentEnd (c : Char) : Bool := c == '.' || c == '!' || c == '?'

/-- Worker for `sentTokenize`: splits at sentence-final punctuation, keeping
every raw segment (possibly empty). -/
def sentSegAux : List Char → List Char → List (List Char)
  | [], cur => [cur.reverse]
  | c :: rest, cur =>
    if isSentEnd c then cur.reverse :: sentSegAux rest []
    else sentSegAux rest (c :: cur)

/-- Modelled from the spec: "Split hypothesis into sentences (sentence-boundary
segmentation)". The repository calls `nltk.tokenize.sent_tokenize` (the punkt
tokenizer, an external library); it is modelled as splitting at `.`, `!`, `?`
and discarding segments that contain no words, so the empty string yields no
sentences. -/
def sentTokenize (cs : List Char) : List (List Char) :=
  (sentSegAux cs []).filter (fun seg => pySplit seg ≠ [])

/-- Python division on numbers: raises `ZeroDivisionError` on a zero
denominator, otherwise exact division (floats modelled as `ℚ`). -/
def pyDiv (a b : ℚ) : Except String ℚ :=
  if b = 0 then .error "ZeroDivisionError" else .ok (a / b)

/-- Python `min` on two numbers (returns the first argument on ties). -/
def pyMin (a b : ℚ) : ℚ := if a ≤ b then a else b

/-- Embedding of `word_count = len(text.split())` in `calculate_insight_score`. -/
def word_count_of (text : List Char) : Nat := (pySplit text).length

/-- Embedding of `unique_words = len(set(text.lower().split()))` in
`calculate_insight_score`: the number of distinct words of the lowercased
text. -/
def unique_words_of (text : List Char) : Nat :=
  ((pySplit (lowerText text)).dedup).length

/-- Embedding of `lexical_diversity = unique_words / word_count` as computed inside
`calculate_insight_score` (Python: raises on an empty word list). -/
def lexical_diversity_of (text : List Char) : Except String ℚ :=
  pyDiv (unique_words_of text) (word_count_of text)

/-- Embedding of `SUPERTMetric.calculate_insight_score` (src/tests/supert_test.py:100-124):
sentence count and word statistics of the text, combined as
`0.4·lexical_diversity + 0.3·avg_sentence_length/20 + 0.3·avg_word_complexity/10`,
capped above at `1.0`. The divisions are performed in the source's order
(`avg_sentence_length` first), so an empty text fails there first. -/
def calculate_insight_score (text : List Char) : Except String ℚ := do
  let sentences := sentTokenize text
  let word_count : ℚ := word_count_of text
  let avg_sentence_length ← pyDiv word_count (sentences.length : ℚ)
  let lexical_diversity ← lexical_diversity_of text
  let avg_word_complexity ←
    pyDiv (((pySplit text).map (fun w => (w.length : ℚ))).sum) word_count
  pure (pyMin (2/5 * lexical_diversity + 3/10 * avg_sentence_length / 20
      + 3/10 * avg_word_complexity / 10) 1)

/-- Dot product of two embedding vectors (`numpy`-style, over the common
length). -/
def dotProduct (x y : List ℚ) : ℚ := (List.zipWith (· * ·) x y).sum

/-- Modelled from the spec: `sklearn.metrics.pairwise.cosine_similarity` is
the dot product divided by the product of the two Euclidean norms. The norm
(a square root, irrational in general) is abstracted as the parameter `nrm`;
the cosine's symmetry in its two vector arguments holds for every `nrm`. -/
def cosineSimilarity (nrm : List ℚ → ℚ) (x y : List ℚ) : ℚ :=
  dotProduct x y / (nrm x * nrm y)

/-- Embedding of `originality_score = 1 - similarity` as computed in
`SUPERTMetric.calculate_score`; `emb` abstracts the mean-pooled, truncated
BERT representation of a text (modelled from the spec: the pretrained
encoder is an external collaborator). -/
def originality_score_of (nrm : List ℚ → ℚ) (emb : List Char → List ℚ)
    (reference hypothesis : List Char) : ℚ :=
  1 - cosineSimilarity nrm (emb reference) (emb hypothesis)

/-- Embedding of `SUPERTMetric.calculate_score` (src/tests/supert_test.py:63-98): embed
both texts, blend `0.5 * originality_score + 0.5 * insight_score`. The
insight-score call can raise (empty hypothesis), and nothing here guards it. -/
def calculate_score (nrm : List ℚ → ℚ) (emb : List Char → List ℚ)
    (reference hypothesis : List Char) : Except String ℚ := do
  let originality_score := originality_score_of nrm emb reference hypothesis
  let insight_score ← calculate_insight_score hypothesis
  pure (1/2 * originality_score + 1/2 * insight_score)

/-- Embedding of `InferenceQualityTester.interpret_score` (src/tests/supert_test.py:168-186). -/
def interpret_score (score : ℚ) : String :=
  if score < 2/5 then "Poor"
  else if score < 3/5 then "Fair"
  else if score < 4/5 then "Good"
  else "Excellent"

/-- Observable outcome of one `InferenceQualityTester.run_test` call:
the per-iteration `(prompt, generated_text, score)` triples in iteration
order, the files the call writes (the source performs no file output, so
this list is always empty), and the returned average score. -/
structure RunReport where
  iterations : List (String × String × ℚ)
  files_written : List (String × List String)
  average_score : ℚ
  deriving DecidableEq

/-- The `for i in range(num_tests)` loop body of `run_test`, one iteration
per index: sample a prompt, generate, score; a scorer exception propagates
out of the whole call. -/
def runIterations (step : Nat → Except String (String × String × ℚ)) :
    List Nat → Except String (List (String × String × ℚ))
  | [] => .ok []
  | i :: rest => do
    let row ← step i
    let rows ← runIterations step rest
    pure (row :: rows)

/-- One iteration of the `for i in range(num_tests)` loop of
`InferenceQualityTester.run_test`: sample a prompt, generate, score.
`prompts i` abstracts the `random.choice` of iteration `i`; `g` abstracts
`InferenceService.generate_text` (modelled from the spec: the service module
`api/services/inference_service.py` is not in the sources). -/
def run_test_step (nrm : List ℚ → ℚ) (emb : List Char → List ℚ)
    (g : String → String) (prompts : Nat → String) (i : Nat) :
    Except String (String × String × ℚ) := do
  let score ← calculate_score nrm emb (prompts i).toList (g (prompts i)).toList
  pure (prompts i, g (prompts i), score)

/-- Main body of `InferenceQualityTester.run_test`
(src/tests/supert_test.py:135-166): run `num_tests` iterations of
`run_test_step`, print each result, and return
`total_score / num_tests` (a Python `ZeroDivisionError` when
`num_tests = 0`). The function writes no file. -/
def run_test (nrm : List ℚ → ℚ) (emb : List Char → List ℚ)
    (g : String → String) (prompts : Nat → String) (num_tests : Int) :
    Except String RunReport := do
  let rows ← runIterations (run_test_step nrm emb g prompts) (List.range num_tests.toNat)
  let average_score ← pyDiv ((rows.map (fun r => r.2.2)).sum) (num_tests : ℚ)
  pure { iterations := rows, files_written := [], average_score := average_score }

/-! ### The HTTP endpoints (src/api/v1/endpoints.py)

`AuthenticationService` and `InferenceService` live in
`api/services/`, which is not among the sources; they are modelled from the
spec. The generation knobs `max_length` and `temperature` are forwarded
unchanged to the external model, abstracted as `g`. -/

/-- An HTTP response: a 200 body, or an error status with a detail string
(the handlers only ever raise `HTTPException(status_code=500, ...)`). -/
inductive HttpResponse (α : Type) where
  | ok (body : α)
  | error (status : Nat) (detail : String)
  deriving DecidableEq

/-- Modelled from the spec: `AuthenticationService.is_valid`
(api/services/authentication_service.py, not in the sources). Per the spec,
validity is an exact, case-sensitive string-equality check of the supplied
key against the single configured secret. -/
def is_valid (secret auth_key : String) : Bool := auth_key == secret

/-- Modelled from the spec: `AuthenticationService.raise_exception_if_invalid`
raises a generic exception when the key is invalid; the message is the
generic free text the handlers pass through. -/
def raise_exception_if_invalid (secret auth_key : String) : Except String Unit :=
  if is_valid secret auth_key then .ok () else .error "Invalid authentication key"

/-- Modelled from the spec: `InferenceService.generate_text_with_batch_size`
(api/services/inference_service.py, not in the sources) invokes the same
generation call once per element of the duplicated input list — sequential
repetition, "not a true batch optimization". -/
def generate_text_with_batch_size (g : String → Int → ℚ → String)
    (inputs : List String) (max_length : Int) (temperature : ℚ) : List String :=
  inputs.map (fun input_context => g input_context max_length temperature)

/-- Python list repetition `[input_context] * num_batches`: empty when
`num_batches ≤ 0`. -/
def pyListMul (input_context : String) (num_batches : Int) : List String :=
  List.replicate num_batches.toNat input_context

/-- The `GET /inference` handler (src/api/v1/endpoints.py:11-33): validate
the key, call `generate_text`; any exception becomes HTTP 500 with the
message attached. -/
def inference (secret : String) (g : String → Int → ℚ → String)
    (input_context auth_key : String) (max_length : Int) (temperature : ℚ) :
    HttpResponse String :=
  match raise_exception_if_invalid secret auth_key with
  | .error e => .error 500 ("Text generation failed: " ++ e)
  | .ok _ => .ok (g input_context max_length temperature)

/-- The `POST /batch_inference` handler (src/api/v1/endpoints.py:36-64):
validate the key, duplicate the single input `num_batches` times, run the
batch call; any exception becomes HTTP 500 with the message attached. No
validation of `num_batches` is performed. -/
def batch_inference (secret : String) (g : String → Int → ℚ → String)
    (input_context auth_key : String) (num_batches : Int) (max_length : Int)
    (temperature : ℚ) : HttpResponse (List String) :=
  match raise_exception_if_invalid secret auth_key with
  | .error e => .error 500 ("Batch text generation failed: " ++ e)
  | .ok _ =>
    let input_contexts := pyListMul input_context num_batches
    .ok (generate_text_with_batch_size g input_contexts max_length temperature)

/-- The `GET /login` handler (src/api/v1/endpoints.py:67-81): it only calls
`is_valid` (never `raise_exception_if_invalid`), so it answers
`{"authenticated": bool}` with HTTP 200 for any key; the `except` branch is
unreachable because the equality check cannot raise. -/
def login (secret auth_key : String) : HttpResponse Bool :=
  .ok (is_valid secret auth_key)

/-- Test for an HTTP 500 response, the only error the handlers produce. -/
def is_http_500 {α : Type} : HttpResponse α → Bool
  | .error 500 _ => true
  | _ => false

/-! ### Helper lemmas -/

theorem except_bind_ok {ε α β : Type} (a : α) (f : α → Except ε β) :
    (Except.ok a >>= f : Except ε β) = f a := rfl

theorem except_bind_error {ε α β : Type} (e : ε) (f : α → Except ε β) :
    (Except.error e >>= f : Except ε β) = .error e := rfl

theorem except_map_ok {ε α β : Type} (a : α) (f : α → β) :
    (f <$> Except.ok a : Except ε β) = .ok (f a) := rfl

theorem except_map_error {ε α β : Type} (e : ε) (f : α → β) :
    (f <$> Except.error e : Except ε β) = .error e := rfl

/-- Lowercasing never turns a character into whitespace or back. -/
theorem isWs_lowerChar (c : Char) : isWs (lowerChar c) = isWs c := by
  rcases eq_or_ne c 'A' with rfl | hA
  · rfl
  rcases eq_or_ne c 'B' with rfl | hB
  · rfl
  rcases eq_or_ne c 'C' with rfl | hC
  · rfl
  rcases eq_or_ne c 'D' with rfl | hD
  · rfl
  rcases eq_or_ne c 'E' with rfl | hE
  · rfl
  rcases eq_or_ne c 'F' with rfl | hF
  · rfl
  rcases eq_or_ne c 'G' with rfl | hG
  · rfl
  rcases eq_or_ne c 'H' with rfl | hH
  · rfl
  rcases eq_or_ne c 'I' with rfl | hI
  · rfl
  rcases eq_or_ne c 'J' with rfl | hJ
  · rfl
  rcases eq_or_ne c 'K' with rfl | hK
  · rfl
  rcases eq_or_ne c 'L' with rfl | hL
  · rfl
  rcases eq_or_ne c 'M' with rfl | hM
  · rfl
  rcases eq_or_ne c 'N' with rfl | hN
  · rfl
  rcases eq_or_ne c 'O' with rfl | hO
  · rfl
  rcases eq_or_ne c 'P' with rfl | hP
  · rfl
  rcases eq_or_ne c 'Q' with rfl | hQ
  · rfl
  rcases eq_or_ne c 'R' with rfl | hR
  · rfl
  rcases eq_or_ne c 'S' with rfl | hS
  · rfl
  rcases eq_or_ne c 'T' with rfl | hT
  · rfl
  rcases eq_or_ne c 'U' with rfl | hU
  · rfl
  rcases eq_or_ne c 'V' with rfl | hV
  · rfl
  rcases eq_or_ne c 'W' with rfl | hW
  · rfl
  rcases eq_or_ne c 'X' with rfl | hX
  · rfl
  rcases eq_or_ne c 'Y' with rfl | hY
  · rfl
  rcases eq_or_ne c 'Z' with rfl | hZ
  · rfl
  rw [lowerChar, if_neg hA, if_neg hB, if_neg hC, if_neg hD, if_neg hE, if_neg hF, if_neg hG, if_neg hH, if_neg hI, if_neg hJ, if_neg hK, if_neg hL, if_neg hM, if_neg hN, if_neg hO, if_neg hP, if_neg hQ, if_neg hR, if_neg hS, if_neg hT, if_neg hU, if_neg hV, if_neg hW, if_neg hX, if_neg hY, if_neg hZ]

/-- Word-splitting commutes with lowercasing, because lowercasing preserves
whitespace-ness character by character. -/
theorem wordsAux_map_lowerChar (cs : List Char) : ∀ cur : List Char,
    wordsAux (cs.map lowerChar) (cur.map lowerChar)
      = (wordsAux cs cur).map (List.map lowerChar) := by
  induction cs with
  | nil =>
    intro cur
    by_cases h : cur = []
    · simp [wordsAux, h]
    · have h' : cur.map lowerChar ≠ [] := by simpa using h
      simp [wordsAux, h, h']
  | cons c rest ih =>
    intro cur
    simp only [List.map_cons, wordsAux, isWs_lowerChar c]
    by_cases hws : isWs c
    · simp only [hws, if_true]
      by_cases h : cur = []
      · have h' : cur.map lowerChar = [] := by simp [h]
        simpa [h, h'] using ih []
      · have h' : cur.map lowerChar ≠ [] := by simpa using h
        simpa [h, h'] using ih []
    · simpa [hws] using ih (c :: cur)

/-- Splitting the lowercased text gives the lowercased words of the original
text. -/
theorem pySplit_map_lowerChar (text : List Char) :
    pySplit (text.map lowerChar) = (pySplit text).map (List.map lowerChar) := by
  simpa [pySplit] using wordsAux_map_lowerChar text []

/-- Rational cast of a word count is nonzero when the word list is nonempty. -/
theorem word_count_cast_ne_zero {text : List Char} (h : pySplit text ≠ []) :
    ((word_count_of text : Nat) : ℚ) ≠ 0 := by
  have h0 : word_count_of text ≠ 0 := by
    simpa [word_count_of, List.length_eq_zero] using h
  exact_mod_cast h0

/-- Rational cast of a sentence count is nonzero when the sentence list is
nonempty. -/
theorem sentence_count_cast_ne_zero {text : List Char} (h : sentTokenize text ≠ []) :
    (((sentTokenize text).length : Nat) : ℚ) ≠ 0 := by
  have h0 : (sentTokenize text).length ≠ 0 := by
    simpa [List.length_eq_zero] using h
  exact_mod_cast h0

/-- On a text with at least one word and at least one sentence,
`calculate_insight_score` succeeds and returns the capped weighted sum. -/
theorem calculate_insight_score_ok (text : List Char)
    (hw : pySplit text ≠ []) (hs : sentTokenize text ≠ []) :
    calculate_insight_score text = .ok (pyMin
      (2/5 * ((unique_words_of text : ℚ) / (word_count_of text : ℚ))
        + 3/10 * ((word_count_of text : ℚ) / (((sentTokenize text).length : Nat) : ℚ)) / 20
        + 3/10 * ((((pySplit text).map (fun w => ((w.length : Nat) : ℚ))).sum)
            / (word_count_of text : ℚ)) / 10) 1) := by
  have hw' := word_count_cast_ne_zero hw
  have hs' := sentence_count_cast_ne_zero hs
  rw [calculate_insight_score, lexical_diversity_of]
  simp [pyDiv, hw', hs', except_bind_ok, except_map_ok]

/-- The weighted sum in `calculate_insight_score` is nonnegative. -/
theorem insight_sum_nonneg (text : List Char) :
    0 ≤ 2/5 * ((unique_words_of text : ℚ) / (word_count_of text : ℚ))
        + 3/10 * ((word_count_of text : ℚ) / (((sentTokenize text).length : Nat) : ℚ)) / 20
        + 3/10 * ((((pySplit text).map (fun w => ((w.length : Nat) : ℚ))).sum)
            / (word_count_of text : ℚ)) / 10 := by
  have hsum : 0 ≤ (((pySplit text).map (fun w => ((w.length : Nat) : ℚ))).sum) := by
    refine List.sum_nonneg ?_
    intro x hx
    obtain ⟨w, _, rfl⟩ := List.mem_map.mp hx
    positivity
  have h1 : (0:ℚ) ≤ ((unique_words_of text : ℚ)) := by positivity
  have h2 : (0:ℚ) ≤ ((word_count_of text : ℚ)) := by positivity
  have h3 : (0:ℚ) ≤ ((((sentTokenize text).length : Nat) : ℚ)) := by positivity
  have d1 : (0:ℚ) ≤ (unique_words_of text : ℚ) / (word_count_of text : ℚ) :=
    div_nonneg h1 h2
  have d2 : (0:ℚ) ≤ (word_count_of text : ℚ) / (((sentTokenize text).length : Nat) : ℚ) :=
    div_nonneg h2 h3
  have d3 : (0:ℚ) ≤ (((pySplit text).map (fun w => ((w.length : Nat) : ℚ))).sum)
      / (word_count_of text : ℚ) := div_nonneg hsum h2
  nlinarith

/-- A `pyMin _ 1` value is at most `1`. -/
theorem pyMin_le_one (a : ℚ) : pyMin a 1 ≤ 1 := by
  rw [pyMin]; split <;> simp_all

/-- A `pyMin _ 1` value of a nonnegative number is nonnegative. -/
theorem pyMin_nonneg {a : ℚ} (h : 0 ≤ a) : 0 ≤ pyMin a 1 := by
  rw [pyMin]; split <;> norm_num [h]

/-- Evaluation: a single 20-character word reaches the `1.0` cap
(`lexical_diversity = 1`, `avg_sentence_length = 1`, `avg_word_complexity = 20`,
weighted sum `1.015`). -/
theorem insight_score_cap_example :
    calculate_insight_score (String.toList "aaaaaaaaaaaaaaaaaaaa") = .ok 1 := by
  have hs : (sentTokenize (String.toList "aaaaaaaaaaaaaaaaaaaa")).length = 1 := by decide
  have hw : word_count_of (String.toList "aaaaaaaaaaaaaaaaaaaa") = 1 := by decide
  have hu : unique_words_of (String.toList "aaaaaaaaaaaaaaaaaaaa") = 1 := by decide
  have hp : (pySplit (String.toList "aaaaaaaaaaaaaaaaaaaa")).map
      (fun w => ((w.length : Nat) : ℚ)) = [20] := by decide
  rw [calculate_insight_score, lexical_diversity_of, hs, hw, hu, hp]
  norm_num [pyDiv, pyMin, except_bind_ok, except_map_ok]

/-- Evaluation: the single word "a" scores `0.4·1 + 0.3·(1/20) + 0.3·(1/10)
= 0.445 = 89/200`. -/
theorem insight_score_single_letter :
    calculate_insight_score (String.toList "a") = .ok (89/200) := by
  have hs : (sentTokenize (String.toList "a")).length = 1 := by decide
  have hw : word_count_of (String.toList "a") = 1 := by decide
  have hu : unique_words_of (String.toList "a") = 1 := by decide
  have hp : pySplit (String.toList "a") = [['a']] := by decide
  rw [calculate_insight_score, lexical_diversity_of, hs, hw, hu, hp]
  norm_num [pyDiv, pyMin, except_bind_ok, except_map_ok]

/-- Unfolding of `calculate_score` as an `Except.map` over the insight score:
shared computation rule for the score decomposition. -/
theorem calculate_score_eq_map (nrm : List ℚ → ℚ) (emb : List Char → List ℚ)
    (reference hypothesis : List Char) :
    calculate_score nrm emb reference hypothesis
      = (calculate_insight_score hypothesis).map
          (fun q => 1/2 * originality_score_of nrm emb reference hypothesis + 1/2 * q) := by
  rw [calculate_score]
  cases h : calculate_insight_score hypothesis <;> rfl

/-! ### Claim theorems -/

/-- C3: for every text with at least one word and at least one sentence,
`calculate_insight_score` returns a value in `[0, 1]` (the weighted sum is
nonnegative and capped above at `1.0`), and the cap is reached by the input
consisting of one 20-character word. -/
theorem insight_score_in_unit_interval :
    (∀ text : List Char, pySplit text ≠ [] → sentTokenize text ≠ [] →
      ∃ q : ℚ, calculate_insight_score text = .ok q ∧ 0 ≤ q ∧ q ≤ 1) ∧
    calculate_insight_score (String.toList "aaaaaaaaaaaaaaaaaaaa") = .ok 1 := by
  constructor
  · intro text hw hs
    refine ⟨_, calculate_insight_score_ok text hw hs, ?_, pyMin_le_one _⟩
    exact pyMin_nonneg (insight_sum_nonneg text)
  · exact insight_score_cap_example

/-- Witness for C3 at the concrete text "ok then". -/
theorem insight_score_in_unit_interval_witness :
    pySplit (String.toList "ok then") ≠ [] ∧
    sentTokenize (String.toList "ok then") ≠ [] ∧
    ∃ q : ℚ, calculate_insight_score (String.toList "ok then") = .ok q ∧
      0 ≤ q ∧ q ≤ 1 :=
  ⟨by decide, by decide,
    insight_score_in_unit_interval.1 (String.toList "ok then") (by decide) (by decide)⟩

/-- C4: for a text of `W ≥ 1` whitespace-separated words of which `U` are
distinct after lowercasing, the `lexical_diversity` computed inside
`calculate_insight_score` is exactly `U / W`. -/
theorem lexical_diversity_exact (text : List Char) (h : pySplit text ≠ []) :
    lexical_diversity_of text
      = .ok (((((pySplit text).map (List.map lowerChar)).dedup.length : Nat) : ℚ)
          / (((pySplit text).length : Nat) : ℚ)) := by
  have hw := word_count_cast_ne_zero h
  rw [lexical_diversity_of, pyDiv, if_neg hw, unique_words_of, lowerText,
    pySplit_map_lowerChar, word_count_of]

/-- Witness for C4 at the concrete text "Aa aa B" (3 words, 2 distinct after
lowercasing). -/
theorem lexical_diversity_exact_witness :
    pySplit (String.toList "Aa aa B") ≠ [] ∧
    lexical_diversity_of (String.toList "Aa aa B")
      = .ok ((((((pySplit (String.toList "Aa aa B")).map (List.map lowerChar)).dedup.length
          : Nat) : ℚ)) / (((pySplit (String.toList "Aa aa B")).length : Nat) : ℚ)) :=
  ⟨by decide, lexical_diversity_exact (String.toList "Aa aa B") (by decide)⟩

/-- C5: `calculate_score r h` is `0.5·(1 − cosine_similarity(emb r, emb h))
+ 0.5·insight(h)` whenever the insight score is defined, for every norm and
embedding function. -/
theorem calculate_score_decomposition (nrm : List ℚ → ℚ) (emb : List Char → List ℚ)
    (reference hypothesis : List Char) (q : ℚ)
    (h : calculate_insight_score hypothesis = .ok q) :
    calculate_score nrm emb reference hypothesis
      = .ok (1/2 * (1 - cosineSimilarity nrm (emb reference) (emb hypothesis)) + 1/2 * q) := by
  rw [calculate_score_eq_map, h, Except.map, originality_score_of]

/-- Witness for C5 at the concrete hypothesis "a". -/
theorem calculate_score_decomposition_witness :
    calculate_insight_score (String.toList "a") = .ok (89/200) ∧
    calculate_score (fun _ => 1) (fun _ => [1]) (String.toList "b") (String.toList "a")
      = .ok (1/2 * (1 - cosineSimilarity (fun _ => 1) [1] [1]) + 1/2 * (89/200)) :=
  ⟨insight_score_single_letter,
    calculate_score_decomposition (fun _ => 1) (fun _ => [1]) (String.toList "b")
      (String.toList "a") (89/200) insight_score_single_letter⟩

/-- C6: on the empty hypothesis, `calculate_insight_score` raises
`ZeroDivisionError` (rather than returning any score), and `calculate_score`
propagates the error unguarded for every norm, embedding and reference. -/
theorem empty_hypothesis_divide_by_zero :
    calculate_insight_score [] = .error "ZeroDivisionError" ∧
    ∀ (nrm : List ℚ → ℚ) (emb : List Char → List ℚ) (reference : List Char),
      calculate_score nrm emb reference [] = .error "ZeroDivisionError" := by
  exact ⟨rfl, fun nrm emb reference => rfl⟩

/-- Dot products are symmetric. -/
theorem dotProduct_comm (x y : List ℚ) : dotProduct x y = dotProduct y x := by
  rw [dotProduct, dotProduct, List.zipWith_comm_of_comm _ mul_comm]

/-- Cosine similarity is symmetric, whatever the norm function. -/
theorem cosineSimilarity_comm (nrm : List ℚ → ℚ) (x y : List ℚ) :
    cosineSimilarity nrm x y = cosineSimilarity nrm y x := by
  rw [cosineSimilarity, cosineSimilarity, dotProduct_comm, mul_comm]

/-- Evaluation of `calculate_score` with the trivial norm and embedding and
the 20-character hypothesis: originality is `0`, insight is `1`, score `1/2`. -/
theorem calculate_score_cap_hyp_eval (reference : List Char) :
    calculate_score (fun _ => 1) (fun _ => [1]) reference
      (String.toList "aaaaaaaaaaaaaaaaaaaa") = .ok (1/2) := by
  rw [calculate_score_eq_map, insight_score_cap_example, Except.map]
  norm_num [originality_score_of, cosineSimilarity, dotProduct]

/-- Evaluation of `calculate_score` with the trivial norm and embedding and
the hypothesis "a": originality is `0`, insight is `89/200`, score `89/400`. -/
theorem calculate_score_single_letter_eval (reference : List Char) :
    calculate_score (fun _ => 1) (fun _ => [1]) reference (String.toList "a")
      = .ok (89/400) := by
  rw [calculate_score_eq_map, insight_score_single_letter, Except.map]
  norm_num [originality_score_of, cosineSimilarity, dotProduct]

/-- C7: the originality component of `calculate_score` is symmetric in
reference and hypothesis (cosine similarity is symmetric), yet
`calculate_score` itself is not symmetric: swapping the argument pair
("a", 20-character word) changes the score, because the insight component
depends only on the hypothesis argument. -/
theorem calculate_score_not_symmetric :
    (∀ (nrm : List ℚ → ℚ) (emb : List Char → List ℚ) (reference hypothesis : List Char),
      originality_score_of nrm emb reference hypothesis
        = originality_score_of nrm emb hypothesis reference) ∧
    calculate_score (fun _ => 1) (fun _ => [1]) (String.toList "a")
        (String.toList "aaaaaaaaaaaaaaaaaaaa")
      ≠ calculate_score (fun _ => 1) (fun _ => [1])
        (String.toList "aaaaaaaaaaaaaaaaaaaa") (String.toList "a") := by
  constructor
  · intro nrm emb reference hypothesis
    rw [originality_score_of, originality_score_of, cosineSimilarity_comm]
  · rw [calculate_score_cap_hyp_eval, calculate_score_single_letter_eval]
    intro h
    have : (1/2 : ℚ) = 89/400 := Except.ok.inj h
    norm_num at this

/-- C8: `interpret_score` buckets every score into exactly one of the four
labels at the thresholds `0.4`, `0.6` and `0.8`: below `0.4` is "Poor",
`[0.4, 0.6)` is "Fair", `[0.6, 0.8)` is "Good", and at or above `0.8` is
"Excellent". -/
theorem interpret_score_buckets (score : ℚ) :
    (interpret_score score = "Poor" ↔ score < 2/5) ∧
    (interpret_score score = "Fair" ↔ 2/5 ≤ score ∧ score < 3/5) ∧
    (interpret_score score = "Good" ↔ 3/5 ≤ score ∧ score < 4/5) ∧
    (interpret_score score = "Excellent" ↔ 4/5 ≤ score) := by
  rw [interpret_score]
  split_ifs with h1 h2 h3 <;>
    refine ⟨?_, ?_, ?_, ?_⟩ <;> constructor <;> intro hx <;>
    first
      | rfl
      | linarith
      | exact absurd hx (by decide)
      | (constructor <;> linarith)
      | (exfalso; obtain ⟨hx1, hx2⟩ := hx; linarith)
      | (exfalso; linarith)

/-- C1 counterexample: with configured secret "abc123", a login request with
the non-matching key "ABC123" is answered HTTP 200 with
`{"authenticated": false}` — not an HTTP 500 error as the claim states for
all three endpoints. -/
theorem login_wrong_key_not_500 :
    login "abc123" "ABC123" = HttpResponse.ok false ∧
    is_http_500 (login "abc123" "ABC123") = false := by
  exact ⟨rfl, rfl⟩

/-- C1 amended: a non-matching key makes `inference` and `batch_inference`
answer HTTP 500 with the generic exception message, while `login` answers
HTTP 200 with `{"authenticated": false}`. -/
theorem invalid_key_responses (secret : String) (g : String → Int → ℚ → String)
    (input_context auth_key : String) (num_batches max_length : Int)
    (temperature : ℚ) (h : auth_key ≠ secret) :
    inference secret g input_context auth_key max_length temperature
      = .error 500 ("Text generation failed: " ++ "Invalid authentication key") ∧
    batch_inference secret g input_context auth_key num_batches max_length temperature
      = .error 500 ("Batch text generation failed: " ++ "Invalid authentication key") ∧
    is_http_500 (inference secret g input_context auth_key max_length temperature) = true ∧
    is_http_500 (batch_inference secret g input_context auth_key num_batches
      max_length temperature) = true ∧
    login secret auth_key = .ok false := by
  have hv : is_valid secret auth_key = false := by
    rw [is_valid]; exact beq_eq_false_iff_ne.mpr h
  have hr : raise_exception_if_invalid secret auth_key
      = .error "Invalid authentication key" := by
    rw [raise_exception_if_invalid, hv]; rfl
  refine ⟨?_, ?_, ?_, ?_, ?_⟩
  · rw [inference, hr]
  · rw [batch_inference, hr]
  · rw [is_http_500.eq_def, inference, hr]
  · rw [is_http_500.eq_def, batch_inference, hr]
  · rw [login, hv]

/-- Witness for C1 at secret "abc123" and request key "ABC123". -/
theorem invalid_key_responses_witness :
    "ABC123" ≠ "abc123" ∧
    (inference "abc123" (fun s _ _ => s) "hello" "ABC123" 512 (3/10)
      = .error 500 ("Text generation failed: " ++ "Invalid authentication key") ∧
    batch_inference "abc123" (fun s _ _ => s) "hello" "ABC123" 1 128 (7/10)
      = .error 500 ("Batch text generation failed: " ++ "Invalid authentication key") ∧
    is_http_500 (inference "abc123" (fun s _ _ => s) "hello" "ABC123" 512 (3/10)) = true ∧
    is_http_500 (batch_inference "abc123" (fun s _ _ => s) "hello" "ABC123" 1 128 (7/10))
      = true ∧
    login "abc123" "ABC123" = .ok false) :=
  ⟨by decide,
    invalid_key_responses "abc123" (fun s _ _ => s) "hello" "ABC123" 1 512 (3/10)
      (by decide)⟩

/-- C2 counterexample: at `num_batches = -1` the batch endpoint answers with
the empty list, whose length `0` is not `-1` — so the response is not "a
sequence of generated strings of length exactly N" for every `N`. -/
theorem batch_inference_negative_count :
    batch_inference "abc123" (fun s _ _ => s) "hello" "abc123" (-1) 128 (7/10)
      = .ok [] ∧
    (([] : List String).length : Int) ≠ (-1 : Int) := by
  exact ⟨rfl, by decide⟩

/-- C2 amended: for every `num_batches = N ≥ 0` and matching key, the batch
endpoint answers the list obtained by invoking the generation call once per
element of the `N`-fold duplicated input, and that list has length exactly
`N`. -/
theorem batch_inference_replicates (secret : String) (g : String → Int → ℚ → String)
    (input_context auth_key : String) (num_batches max_length : Int)
    (temperature : ℚ) (hk : auth_key = secret) (hn : 0 ≤ num_batches) :
    batch_inference secret g input_context auth_key num_batches max_length temperature
      = .ok ((pyListMul input_context num_batches).map
          (fun c => g c max_length temperature)) ∧
    ((pyListMul input_context num_batches).map
        (fun c => g c max_length temperature)).length = num_batches.toNat ∧
    (num_batches.toNat : Int) = num_batches := by
  have hv : is_valid secret auth_key = true := by
    rw [is_valid, hk]; exact beq_self_eq_true secret
  have hr : raise_exception_if_invalid secret auth_key = .ok () := by
    rw [raise_exception_if_invalid, hv]; rfl
  refine ⟨?_, ?_, Int.toNat_of_nonneg hn⟩
  · rw [batch_inference, hr]; rfl
  · rw [pyListMul]; simp

/-- Witness for C2 at `num_batches = 3` against input "hello" (the spec's
end-to-end scenario: the result array has exactly 3 elements). -/
theorem batch_inference_replicates_witness :
    "abc123" = "abc123" ∧ (0 : Int) ≤ 3 ∧
    (batch_inference "abc123" (fun s _ _ => s) "hello" "abc123" 3 128 (7/10)
      = .ok ((pyListMul "hello" 3).map (fun c => (fun s _ _ => s) c 128 (7/10))) ∧
    ((pyListMul "hello" 3).map (fun c => (fun s _ _ => s) c 128 (7/10))).length
      = (3 : Int).toNat ∧
    (((3 : Int).toNat : Int)) = 3) :=
  ⟨rfl, by decide,
    batch_inference_replicates "abc123" (fun s _ _ => s) "hello" "abc123" 3 128 (7/10)
      rfl (by decide)⟩

/-- C10: for every `num_batches ≤ 0` the handler builds the empty duplicated
input list, forwards it to the service, and raises no validation error: the
response is HTTP 200 with the empty result list. -/
theorem batch_inference_nonpositive (secret : String) (g : String → Int → ℚ → String)
    (input_context auth_key : String) (num_batches max_length : Int)
    (temperature : ℚ) (hn : num_batches ≤ 0) (hk : auth_key = secret) :
    pyListMul input_context num_batches = [] ∧
    batch_inference secret g input_context auth_key num_batches max_length temperature
      = .ok (generate_text_with_batch_size g [] max_length temperature) ∧
    batch_inference secret g input_context auth_key num_batches max_length temperature
      = .ok [] := by
  have hz : num_batches.toNat = 0 := Int.toNat_eq_zero.mpr hn
  have hemp : pyListMul input_context num_batches = [] := by
    rw [pyListMul, hz]; rfl
  have hv : is_valid secret auth_key = true := by
    rw [is_valid, hk]; exact beq_self_eq_true secret
  have hr : raise_exception_if_invalid secret auth_key = .ok () := by
    rw [raise_exception_if_invalid, hv]; rfl
  refine ⟨hemp, ?_, ?_⟩ <;> rw [batch_inference, hr, hemp] <;> rfl

/-- Witness for C10 at `num_batches = -2`. -/
theorem batch_inference_nonpositive_witness :
    (-2 : Int) ≤ 0 ∧ "abc123" = "abc123" ∧
    (pyListMul "hello" (-2) = [] ∧
    batch_inference "abc123" (fun s _ _ => s) "hello" "abc123" (-2) 128 (7/10)
      = .ok (generate_text_with_batch_size (fun s _ _ => s) [] 128 (7/10)) ∧
    batch_inference "abc123" (fun s _ _ => s) "hello" "abc123" (-2) 128 (7/10)
      = .ok []) :=
  ⟨by decide, rfl,
    batch_inference_nonpositive "abc123" (fun s _ _ => s) "hello" "abc123" (-2) 128
      (7/10) (by decide) rfl⟩

/-- Inversion of the iteration loop: a successful run produces one row per
index, the row at position `k` coming from the step at the list's `k`-th
index. -/
theorem runIterations_ok (step : Nat → Except String (String × String × ℚ)) :
    ∀ (l : List Nat) (rows : List (String × String × ℚ)),
      runIterations step l = .ok rows →
      rows.length = l.length ∧
      ∀ k (hk : k < rows.length) (hl : k < l.length),
        step (l.get ⟨k, hl⟩) = .ok (rows.get ⟨k, hk⟩) := by
  intro l
  induction l with
  | nil =>
    intro rows h
    rw [runIterations] at h
    cases h
    exact ⟨rfl, fun k hk hl => absurd hl (by simp)⟩
  | cons i rest ih =>
    intro rows h
    rw [runIterations] at h
    cases hstep : step i with
    | error e => rw [hstep, except_bind_error] at h; simp at h
    | ok row =>
      rw [hstep, except_bind_ok] at h
      cases hrest : runIterations step rest with
      | error e => rw [hrest, except_bind_error] at h; simp at h
      | ok rows' =>
        rw [hrest, except_bind_ok] at h
        cases h
        obtain ⟨hlen, hget⟩ := ih rows' hrest
        refine ⟨by simp [hlen], ?_⟩
        intro k hk hl
        cases k with
        | zero => simpa using hstep
        | succ k' =>
          simpa using hget k' (by simpa using hk) (by simpa using hl)

/-- Inversion of one loop iteration: a successful step's row carries the
iteration's prompt and generated text. -/
theorem run_test_step_ok {nrm : List ℚ → ℚ} {emb : List Char → List ℚ}
    {g : String → String} {prompts : Nat → String} {i : Nat}
    {row : String × String × ℚ}
    (h : run_test_step nrm emb g prompts i = .ok row) :
    row.1 = prompts i ∧ row.2.1 = g (prompts i) := by
  rw [run_test_step] at h
  cases hc : calculate_score nrm emb (prompts i).toList (g (prompts i)).toList with
  | error e => rw [hc, except_bind_error] at h; simp at h
  | ok q => rw [hc, except_bind_ok] at h; cases h; exact ⟨rfl, rfl⟩

/-- C9 amended: every completed harness run of `N` test iterations yields a
report with exactly one `(prompt, generated_text, score)` row per iteration,
in iteration order, and writes no file (in particular, no
`inference_quality_results_<timestamp>.csv` exists). -/
theorem run_test_report (nrm : List ℚ → ℚ) (emb : List Char → List ℚ)
    (g : String → String) (prompts : Nat → String) (num_tests : Int)
    (rep : RunReport) (h : run_test nrm emb g prompts num_tests = .ok rep) :
    rep.files_written = [] ∧
    rep.iterations.length = num_tests.toNat ∧
    ∀ k (hk : k < rep.iterations.length),
      (rep.iterations.get ⟨k, hk⟩).1 = prompts k ∧
      (rep.iterations.get ⟨k, hk⟩).2.1 = g (prompts k) := by
  rw [run_test] at h
  cases hrows : runIterations (run_test_step nrm emb g prompts)
      (List.range num_tests.toNat) with
  | error e => rw [hrows, except_bind_error] at h; simp at h
  | ok rows =>
    rw [hrows, except_bind_ok] at h
    cases havg : pyDiv ((rows.map (fun r => r.2.2)).sum) ((num_tests : Int) : ℚ) with
    | error e => rw [havg, except_bind_error] at h; simp at h
    | ok avg =>
      rw [havg, except_bind_ok] at h
      cases h
      obtain ⟨hlen, hget⟩ := runIterations_ok _ _ _ hrows
      refine ⟨rfl, by simpa using hlen, ?_⟩
      intro k hk
      have hl : k < (List.range num_tests.toNat).length := by
        rw [← hlen]; exact hk
      have hstep := hget k hk hl
      rw [List.get_range] at hstep
      exact run_test_step_ok hstep

/-- Evaluation of a concrete one-iteration run with the trivial norm and
embedding: the report holds the single row and the average, and its list of
written files is empty. -/
theorem run_test_concrete_eval :
    run_test (fun _ => 1) (fun _ => [1]) (fun _ => "aaaaaaaaaaaaaaaaaaaa")
      (fun _ => "hi") 1
      = .ok ⟨[("hi", "aaaaaaaaaaaaaaaaaaaa", 1/2)], [], 1/2⟩ := by
  have hstep : run_test_step (fun _ => 1) (fun _ => [1])
      (fun _ => "aaaaaaaaaaaaaaaaaaaa") (fun _ => "hi") 0
      = .ok ("hi", "aaaaaaaaaaaaaaaaaaaa", 1/2) := by
    rw [run_test_step, calculate_score_cap_hyp_eval]; rfl
  have hrange : List.range (Int.toNat 1) = [0] := by decide
  rw [run_test, hrange, runIterations, hstep, except_bind_ok, runIterations,
    except_bind_ok]
  norm_num [pyDiv]

/-- C9 counterexample: the concrete completed run of one iteration produces
its report with an empty list of written files — no
`inference_quality_results_<timestamp>.csv` (nor any other file) exists
after the run. -/
theorem run_test_writes_no_file :
    run_test (fun _ => 1) (fun _ => [1]) (fun _ => "aaaaaaaaaaaaaaaaaaaa")
      (fun _ => "hi") 1
      = .ok ⟨[("hi", "aaaaaaaaaaaaaaaaaaaa", 1/2)], [], 1/2⟩ ∧
    (RunReport.mk [("hi", "aaaaaaaaaaaaaaaaaaaa", 1/2)] [] (1/2)).files_written
      = [] :=
  ⟨run_test_concrete_eval, rfl⟩

/-- Witness for C9 at the concrete one-iteration run. -/
theorem run_test_report_witness :
    run_test (fun _ => 1) (fun _ => [1]) (fun _ => "aaaaaaaaaaaaaaaaaaaa")
        (fun _ => "hi") 1
      = .ok ⟨[("hi", "aaaaaaaaaaaaaaaaaaaa", 1/2)], [], 1/2⟩ ∧
    ((RunReport.mk [("hi", "aaaaaaaaaaaaaaaaaaaa", 1/2)] [] (1/2)).files_written = [] ∧
    (RunReport.mk [("hi", "aaaaaaaaaaaaaaaaaaaa", 1/2)] [] (1/2)).iterations.length
      = (1 : Int).toNat ∧
    ∀ k (hk : k < (RunReport.mk [("hi", "aaaaaaaaaaaaaaaaaaaa", 1/2)] []
        (1/2)).iterations.length),
      ((RunReport.mk [("hi", "aaaaaaaaaaaaaaaaaaaa", 1/2)] [] (1/2)).iterations.get
        ⟨k, hk⟩).1 = (fun _ => "hi") k ∧
      ((RunReport.mk [("hi", "aaaaaaaaaaaaaaaaaaaa", 1/2)] [] (1/2)).iterations.get
        ⟨k, hk⟩).2.1 = (fun _ => "aaaaaaaaaaaaaaaaaaaa") ((fun _ => "hi") k)) :=
  ⟨run_test_concrete_eval,
    run_test_report (fun _ => 1) (fun _ => [1]) (fun _ => "aaaaaaaaaaaaaaaaaaaa")
      (fun _ => "hi") 1 (RunReport.mk [("hi", "aaaaaaaaaaaaaaaaaaaa", 1/2)] [] (1/2))
      run_test_concrete_eval⟩

end RandomRepo
